import Mathlib

/-!
Shallow embedding of the PG-Strom gstore_fdw chunk store (src/gstore_fdw.c)
and the GPU execution-context pool / resource tracker (src/gpu_context.c).

Transaction ids, command ids and object ids are modelled as `Nat`.
The PostgreSQL transaction/snapshot oracle (TransactionIdIsCurrentTransactionId,
XidInMVCCSnapshot, TransactionIdDidCommit, TransactionIdPrecedes) is an external
collaborator of this repository, so it is abstracted as a structure of Boolean
functions; the gstore_fdw code under verification only ever branches on the
Boolean answers of these calls.
-/

namespace GStore

/-- PostgreSQL constant: InvalidTransactionId = 0. -/
def InvalidTransactionId : Nat := 0

/-- PostgreSQL constant: FrozenTransactionId = 2 (permanently visible). -/
def FrozenTransactionId : Nat := 2

/-- PostgreSQL constant: FirstNormalTransactionId = 3. -/
def FirstNormalTransactionId : Nat := 3

/-- PostgreSQL macro TransactionIdIsValid: the xid differs from InvalidTransactionId. -/
def TransactionIdIsValid (x : Nat) : Bool := x != InvalidTransactionId

/-- PostgreSQL macro TransactionIdIsNormal: the xid is at least FirstNormalTransactionId. -/
def TransactionIdIsNormal (x : Nat) : Bool := FirstNormalTransactionId ≤ x

/-- Transaction-status oracle supplied by PostgreSQL (external collaborator):
`isCurrent` models TransactionIdIsCurrentTransactionId, `didCommit` models
TransactionIdDidCommit, and `precedes` models TransactionIdPrecedes. -/
structure TxOracle where
  isCurrent : Nat → Bool
  didCommit : Nat → Bool
  precedes : Nat → Nat → Bool

/-- MVCC snapshot as seen by gstore_fdw: the current command id `curcid` and
the XidInMVCCSnapshot test `xidIn` (true = transaction still in progress
according to this snapshot). -/
structure Snapshot where
  curcid : Nat
  xidIn : Nat → Bool

/-- GpuStoreChunk: one shared chunk descriptor (struct GpuStoreChunk in
src/gstore_fdw.c).  The dlist chain is represented by list membership; the
CUipcMemHandle is an opaque `Nat` token. -/
structure GpuStoreChunk where
  hash : Nat
  database_oid : Nat
  table_oid : Nat
  xmax : Nat
  xmin : Nat
  cid : Nat
  xmax_commited : Bool
  xmin_commited : Bool
  kds_nitems : Nat
  kds_length : Nat
  cuda_dindex : Int
  ipc_mhandle : Nat
  dsm_handle : Nat
  deriving Repr, DecidableEq

/-- Delete-side half of gstore_fdw_satisfies_visibility (src/gstore_fdw.c
lines 139-172): reached once the inserting transaction is known committed.
The C routine mutates the chunk in place (caching xmax_commited, resetting an
aborted xmax); the embedding returns the visibility verdict together with the
updated chunk. -/
def gstore_fdw_visibility_xmax (o : TxOracle) (c : GpuStoreChunk) (s : Snapshot) :
    Bool × GpuStoreChunk :=
  if ¬ TransactionIdIsValid c.xmax then
    (true, c)       /- nobody deleted yet -/
  else if ¬ c.xmax_commited then
    if o.isCurrent c.xmax then
      if s.curcid ≤ c.cid then
        (true, c)   /- deleted after scan started -/
      else
        (false, c)  /- deleted before scan started -/
    else if s.xidIn c.xmax then
      (true, c)
    else if ¬ o.didCommit c.xmax then
      /- it must have aborted or crashed -/
      (true, { c with xmax := InvalidTransactionId })
    else
      /- xmax transaction committed -/
      (false, { c with xmax_commited := true })
  else
    if s.xidIn c.xmax then
      (true, c)     /- treat as still in progress -/
    else
      (false, c)

/-- gstore_fdw_satisfies_visibility (src/gstore_fdw.c lines 94-172): MVCC
visibility of one chunk under a snapshot, returning the verdict and the chunk
as mutated by the call (status caching / reset of aborted xids). -/
def gstore_fdw_satisfies_visibility (o : TxOracle) (c : GpuStoreChunk) (s : Snapshot) :
    Bool × GpuStoreChunk :=
  if ¬ c.xmin_commited then
    if ¬ TransactionIdIsValid c.xmin then
      (false, c)    /- aborted or crashed -/
    else if o.isCurrent c.xmin then
      if s.curcid ≤ c.cid then
        (false, c)  /- inserted after scan started -/
      else if c.xmax = InvalidTransactionId then
        (true, c)   /- nobody delete it yet -/
      else if ¬ o.isCurrent c.xmax then
        /- deleting subtransaction must have aborted -/
        (true, { c with xmax := InvalidTransactionId })
      else if s.curcid ≤ c.cid then
        (true, c)   /- deleted after scan started -/
      else
        (false, c)  /- deleted before scan started -/
    else if s.xidIn c.xmin then
      (false, c)
    else if o.didCommit c.xmin then
      gstore_fdw_visibility_xmax o { c with xmin_commited := true } s
    else
      /- it must have aborted or crashed -/
      (false, { c with xmin := InvalidTransactionId })
  else
    /- xmin is committed, but maybe not according to our snapshot -/
    if c.xmin ≠ FrozenTransactionId ∧ s.xidIn c.xmin then
      (false, c)    /- treat as still in progress -/
    else
      gstore_fdw_visibility_xmax o c s

/-- Error taxonomy raised by the embedded gstore_fdw paths: ereport codes
ERRCODE_INSUFFICIENT_RESOURCES and ERRCODE_FEATURE_NOT_SUPPORTED, and the
elog(ERROR, "Bug? multiple GpuStoreChunks are visible") consistency violation. -/
inductive GstoreError where
  | insufficientResources
  | featureNotSupported
  | multipleVisibleChunks
  deriving Repr, DecidableEq

/-- Identity part of the bucket-scan condition of gstore_fdw_lookup_chunk_nolock
(src/gstore_fdw.c lines 219-221): hash, database oid and table oid all match. -/
def chunkIdentMatches (h db tbl : Nat) (c : GpuStoreChunk) : Bool :=
  c.hash == h && c.database_oid == db && c.table_oid == tbl

/-- Full per-chunk condition of the bucket scan: identity matches and the
visibility predicate passes (short-circuit order as in the source). -/
def gstoreChunkPasses (o : TxOracle) (s : Snapshot) (h db tbl : Nat)
    (c : GpuStoreChunk) : Bool :=
  chunkIdentMatches h db tbl c && (gstore_fdw_satisfies_visibility o c s).1

/-- gstore_fdw_lookup_chunk_nolock (src/gstore_fdw.c lines 200-231): scan one
hash bucket; identity-matching chunks are run through the visibility predicate
(whose in-place mutations are threaded into the returned bucket); the single
visible chunk is returned, a second visible chunk raises
elog(ERROR, "Bug? multiple GpuStoreChunks are visible"). -/
def gstore_fdw_lookup_chunk_nolock (o : TxOracle) (s : Snapshot) (h db tbl : Nat) :
    List GpuStoreChunk → Except GstoreError (Option GpuStoreChunk × List GpuStoreChunk)
  | [] => .ok (none, [])
  | c :: rest =>
    if chunkIdentMatches h db tbl c then
      let r := gstore_fdw_satisfies_visibility o c s
      match gstore_fdw_lookup_chunk_nolock o s h db tbl rest with
      | .error e => .error e
      | .ok (found, rest') =>
        if r.1 then
          match found with
          | none => .ok (some r.2, r.2 :: rest')
          | some _ => .error .multipleVisibleChunks
        else
          .ok (found, r.2 :: rest')
    else
      match gstore_fdw_lookup_chunk_nolock o s h db tbl rest with
      | .error e => .error e
      | .ok (found, rest') => .ok (found, c :: rest')

/-- Shared chunk-store state relevant to one (database, table) hash bucket:
the bucket of active chunks, the shared free list, the count of live
gpuMemAllocPreserved device allocations, and the has_warm_chunks flag
(GpuStoreHead in src/gstore_fdw.c). -/
structure GStoreState where
  bucket : List GpuStoreChunk
  free_chunks : List GpuStoreChunk
  devPreserved : Nat
  has_warm : Nat
  deriving Repr, DecidableEq

/-- gstoreBeginForeignModify (src/gstore_fdw.c lines 757-788), reduced to its
chunk-store interaction: look up a chunk visible under the caller's snapshot;
if one exists, raise ERRCODE_FEATURE_NOT_SUPPORTED ("foreign table is not
empty") before any descriptor is registered; otherwise continue (the INSERT
buffers are process-local and the descriptor is registered only later, by
gstore_fdw_writeout_pgstrom at EndForeignModify). -/
def gstoreBeginForeignModify (o : TxOracle) (s : Snapshot) (h db tbl : Nat)
    (st : GStoreState) : Except GstoreError GStoreState :=
  match gstore_fdw_lookup_chunk_nolock o s h db tbl st.bucket with
  | .error e => .error e
  | .ok (some _, _) => .error .featureNotSupported
  | .ok (none, bucket') => .ok { st with bucket := bucket' }

/-- gstore_fdw_writeout_pgstrom (src/gstore_fdw.c lines 622-725), reduced to
its shared-state interaction.  The columnar image construction is the external
encoding collaborator; `pinned` tells whether a GpuContext was attached, in
which case gstore_fdw_load_gpu_preserved first acquires a preserved device
allocation.  If the shared free list is empty the function releases the lock,
frees the device allocation just acquired, and raises
ERRCODE_INSUFFICIENT_RESOURCES ("too many gstore_fdw chunks required"); the
error value carries the post-error shared state.  Otherwise a descriptor is
popped from the free list, filled under the writer's transaction id with both
commit flags clear, and linked onto the bucket tail, bumping has_warm_chunks. -/
def gstore_fdw_writeout_pgstrom (pinned : Bool) (h db tbl curXid curcid : Nat)
    (nitems len : Nat) (dindex : Int) (mhandle handle : Nat) (st : GStoreState) :
    Except (GstoreError × GStoreState) GStoreState :=
  let st1 := if pinned then { st with devPreserved := st.devPreserved + 1 } else st
  match st1.free_chunks with
  | [] =>
    let st2 := if pinned then { st1 with devPreserved := st1.devPreserved - 1 } else st1
    .error (.insufficientResources, st2)
  | _ :: free' =>
    let gs_chunk : GpuStoreChunk :=
      { hash := h
        database_oid := db
        table_oid := tbl
        xmax := InvalidTransactionId
        xmin := curXid
        cid := curcid
        xmax_commited := false
        xmin_commited := false
        kds_nitems := nitems
        kds_length := len
        cuda_dindex := dindex
        ipc_mhandle := mhandle
        dsm_handle := handle }
    .ok { st1 with
          free_chunks := free'
          bucket := st1.bucket ++ [gs_chunk]
          has_warm := st1.has_warm + 1 }

/-- gstoreIterateDirectModify (src/gstore_fdw.c lines 935-965): the
whole-chunk DELETE execution step.  The source dereferences the result of
gstore_fdw_lookup_chunk without a NULL check (it only Assert-s that the
chunk's xmax is invalid, a no-op in production builds), so the embedding is
`none` exactly when no visible chunk exists; when a chunk is found its xmax
and cid are overwritten with the deleting transaction's xid and command id and
has_warm_chunks is bumped. -/
def gstoreIterateDirectModify (o : TxOracle) (s : Snapshot) (h db tbl : Nat)
    (curXid curcid : Nat) (bucket : List GpuStoreChunk) (has_warm : Nat) :
    Option (Except GstoreError (GpuStoreChunk × Nat)) :=
  match gstore_fdw_lookup_chunk_nolock o s h db tbl bucket with
  | .error e => some (.error e)
  | .ok (none, _) => none
  | .ok (some g, _) =>
    some (.ok ({ g with xmax := curXid, cid := curcid }, has_warm + 1))

/-- gstoreOnXactCallbackPerChunk (src/gstore_fdw.c lines 977-1035): the
per-chunk commit/abort reclaimer step.  `none` in the first component means
gstore_fdw_release_chunk was invoked (the descriptor was unlinked from its
bucket and returned to the free list); the Boolean is the return value of the
C function (true = the chunk still needs attention from a later pass).
This first part is the if-chain that runs after the caller's-transaction
bookkeeping (src/gstore_fdw.c lines 999-1034). -/
def gstoreXactChunkState (o : TxOracle) (c2 : GpuStoreChunk) (oldestXmin : Nat) :
    Option GpuStoreChunk × Bool :=
  if TransactionIdIsValid c2.xmax then
    if ¬ c2.xmax_commited then
      (some c2, true)   /- delete not committed yet -/
    else if ¬ o.precedes c2.xmax oldestXmin then
      (some c2, true)   /- open transactions may still see the chunk -/
    else
      (none, false)     /- released immediately -/
  else if TransactionIdIsNormal c2.xmin then
    if ¬ c2.xmin_commited then
      (some c2, true)   /- insert not committed yet -/
    else if ¬ o.precedes c2.xmin oldestXmin then
      (some c2, true)   /- open transactions still need MVCC visibility -/
    else
      (some { c2 with xmin := FrozenTransactionId }, false)  /- freeze -/
  else if ¬ TransactionIdIsValid c2.xmin then
    (none, false)       /- insertion aborted: release -/
  else
    (some c2, false)

/-- Second part of gstoreOnXactCallbackPerChunk (src/gstore_fdw.c lines
977-998): commit/abort bookkeeping for chunks whose xmax or xmin belongs to
the ending transaction, followed by the state chain above. -/
def gstoreOnXactCallbackPerChunk (o : TxOracle) (is_commit : Bool)
    (c : GpuStoreChunk) (oldestXmin : Nat) : Option GpuStoreChunk × Bool :=
  let c1 := if o.isCurrent c.xmax then
              if is_commit then { c with xmax_commited := true }
              else { c with xmax := InvalidTransactionId }
            else c
  if o.isCurrent c1.xmin ∧ ¬ is_commit then
    (none, false)   /- insert aborted: release immediately and stop -/
  else
    let c2 := if o.isCurrent c1.xmin then { c1 with xmin_commited := true } else c1
    gstoreXactChunkState o c2 oldestXmin

/-- gstoreXactCallback (src/gstore_fdw.c lines 1040-1078), for a COMMIT or
ABORT event: skip everything when has_warm_chunks is zero; otherwise run the
per-chunk reclaimer over every active chunk, keep the survivors, and write
has_warm_chunks back to zero only when no chunk reported that it still needs
attention. -/
def gstoreXactCallback (o : TxOracle) (is_commit : Bool) (oldestXmin : Nat)
    (chunks : List GpuStoreChunk) (has_warm : Nat) : List GpuStoreChunk × Nat :=
  if has_warm = 0 then
    (chunks, has_warm)
  else
    let results := chunks.map (fun c => gstoreOnXactCallbackPerChunk o is_commit c oldestXmin)
    (results.filterMap Prod.fst, if results.any Prod.snd then has_warm else 0)

end GStore

namespace GpuCtx

/-- Shared execution-context pool state (SharedGpuContextHead in
src/gpu_context.c): `n` slots of SharedGpuContext, a free list of slot
indices, and each slot's shared reference count `refcnt` (an `Int`, so that
"never goes negative" is a meaningful statement). -/
structure CtxPool where
  n : Nat
  free : List Nat
  cnt : List Int
  deriving Repr, DecidableEq

/-- pgstrom_startup_gpu_context (src/gpu_context.c lines 752-761): every slot
starts on the free list with refcnt = 0. -/
def initPool (n : Nat) : CtxPool :=
  { n := n, free := List.range n, cnt := List.replicate n 0 }

/-- Operations on the shared pool observed by the shared descriptor:
`alloc` is AllocGpuContext's slow path popping a free slot (refcnt := 1),
`attach i` is AttachGpuContext's shgcon->refcnt++ on slot `i`, and
`put i` is PutSharedGpuContext's --shgcon->refcnt on slot `i`. -/
inductive PoolOp where
  | alloc
  | attach (i : Nat)
  | put (i : Nat)
  deriving Repr, DecidableEq

/-- One pool step.  `none` models the paths that do not perform the mutation:
AllocGpuContext raises elog(ERROR, "No available SharedGpuContext item.") on
an empty free list, and AttachGpuContext / PutSharedGpuContext both
Assert(shgcon->refcnt > 0) on a descriptor their caller holds, so neither is
ever entered on a slot whose count is zero. -/
def poolStep (st : CtxPool) : PoolOp → Option CtxPool
  | .alloc =>
    match st.free with
    | [] => none
    | i :: rest => some { st with free := rest, cnt := st.cnt.set i 1 }
  | .attach i =>
    if 0 < st.cnt.getD i 0 then
      some { st with cnt := st.cnt.set i (st.cnt.getD i 0 + 1) }
    else
      none
  | .put i =>
    if 0 < st.cnt.getD i 0 then
      if st.cnt.getD i 0 - 1 > 0 then
        some { st with cnt := st.cnt.set i (st.cnt.getD i 0 - 1) }
      else
        /- refcnt reached zero: dmaBufferFreeAll, then push the slot back
           onto sharedGpuContextHead->free_list -/
        some { st with cnt := st.cnt.set i 0, free := i :: st.free }
    else
      none

/-- Pool states reachable from the start-up state through successful
alloc/attach/put steps. -/
inductive PoolReach (n : Nat) : CtxPool → Prop
  | init : PoolReach n (initPool n)
  | step {st st' : CtxPool} {op : PoolOp} :
      PoolReach n st → poolStep st op = some st' → PoolReach n st'

/-- Number of live shared descriptors: slots whose refcnt is positive. -/
def liveCount (st : CtxPool) : Nat :=
  ((List.range st.n).filter (fun i => 0 < st.cnt.getD i 0)).length

/-- Structural pool invariant maintained by every step. -/
def poolInv (n : Nat) (st : CtxPool) : Prop :=
  st.n = n ∧ st.cnt.length = n ∧ st.free.Nodup ∧
  (∀ i ∈ st.free, i < n) ∧
  (∀ i, i < n → (i ∈ st.free ↔ st.cnt.getD i 0 = 0)) ∧
  (∀ i, 0 ≤ st.cnt.getD i 0)

end GpuCtx

namespace ResTrack

/-- RESTRACK_CLASS__GPUMEMORY (src/gpu_context.c). -/
def RESTRACK_CLASS_GPUMEMORY : Nat := 2

/-- ResourceTracker entry for the device-memory class (struct ResourceTracker
in src/gpu_context.c): cached crc, resource class, and the devmem arm of the
union (device pointer plus opaque extra). -/
structure TrackerEntry where
  crc : Nat
  resclass : Nat
  ptr : Nat
  extra : Nat
  deriving Repr, DecidableEq

/-- The per-context restrack table.  The source hashes entries into
RESTRACK_HASHSIZE buckets by crc; since every lookup filters on crc equality
anyway, the buckets are concatenated into one list here (dlist_push_tail keeps
per-bucket insertion order, which the single list preserves). -/
abbrev Tracker := List TrackerEntry

/-- trackGpuMem (src/gpu_context.c lines 159-180): allocate a tracker entry
(`allocOk = false` is the calloc-failure path returning false / OutOfMemory),
fill it with the crc of (class, pointer) computed by `hashval`
(resource_tracker_hashval, a pg_crc32 over the class tag and identity bytes),
and push it on the tail of its bucket. -/
def trackGpuMem (hashval : Nat → Nat → Nat) (t : Tracker) (devptr extra : Nat)
    (allocOk : Bool) : Option Tracker :=
  if allocOk then
    some (t ++ [{ crc := hashval RESTRACK_CLASS_GPUMEMORY devptr
                  resclass := RESTRACK_CLASS_GPUMEMORY
                  ptr := devptr
                  extra := extra }])
  else
    none

/-- Match condition of untrackGpuMem's bucket scan (src/gpu_context.c lines
199-201): crc, class and device pointer all equal. -/
def gpuMemEntryMatches (hashval : Nat → Nat → Nat) (devptr : Nat)
    (e : TrackerEntry) : Bool :=
  e.crc == hashval RESTRACK_CLASS_GPUMEMORY devptr &&
  e.resclass == RESTRACK_CLASS_GPUMEMORY &&
  e.ptr == devptr

/-- untrackGpuMem (src/gpu_context.c lines 182-215): scan the bucket for the
first matching entry, unlink it and return its stored extra; if nothing
matches, emit wnotice("Bug? GPU Device Memory ... was not tracked") and return
NULL with the table untouched. -/
def untrackGpuMem (hashval : Nat → Nat → Nat) :
    Tracker → Nat → Option Nat × Tracker
  | [], _ => (none, [])
  | e :: rest, devptr =>
    if gpuMemEntryMatches hashval devptr e then
      (some e.extra, rest)
    else
      let r := untrackGpuMem hashval rest devptr
      (r.1, e :: r.2)

end ResTrack

namespace GStore

/-- Helper: once the insert is established committed and the snapshot does not
see the inserting transaction as in progress, the visibility predicate reduces
to its delete-side half. -/
theorem visibility_committed_reduces (o : TxOracle) (s : Snapshot) (c : GpuStoreChunk)
    (h1 : c.xmin_commited = true)
    (h2 : c.xmin = FrozenTransactionId ∨ s.xidIn c.xmin = false) :
    gstore_fdw_satisfies_visibility o c s = gstore_fdw_visibility_xmax o c s := by
  unfold gstore_fdw_satisfies_visibility
  rcases h2 with h2 | h2 <;> simp [h1, h2]

/-- C2: for a chunk whose insert-committed flag is clear and whose insert xid
is the caller's own transaction, the visibility predicate returns visible only
if the chunk's command id is strictly earlier than the snapshot's current
command id, and it returns invisible whenever the chunk was also touched by an
own-transaction delete whose command id (which overwrites the chunk's single
cid field, per gstoreIterateDirectModify) is equal to or later than the
snapshot's current command id. -/
theorem gstore_fdw_visibility_own_insert (o : TxOracle) (s : Snapshot) (c : GpuStoreChunk)
    (h1 : c.xmin_commited = false) (h2 : o.isCurrent c.xmin = true) :
    ((gstore_fdw_satisfies_visibility o c s).1 = true → c.cid < s.curcid)
    ∧ (o.isCurrent c.xmax = true → s.curcid ≤ c.cid →
        (gstore_fdw_satisfies_visibility o c s).1 = false) := by
  constructor
  · intro hvis
    by_cases hval : TransactionIdIsValid c.xmin
    · by_cases hc : s.curcid ≤ c.cid
      · unfold gstore_fdw_satisfies_visibility at hvis
        simp [h1, h2, hval, hc] at hvis
      · omega
    · unfold gstore_fdw_satisfies_visibility at hvis
      simp [h1, hval] at hvis
  · intro hx hc
    by_cases hval : TransactionIdIsValid c.xmin
    · unfold gstore_fdw_satisfies_visibility
      simp [h1, h2, hval, hc]
    · unfold gstore_fdw_satisfies_visibility
      simp [h1, hval]

/-- Witness for C2 at a concrete chunk: own transaction 10 inserted at command
3 under a snapshot with current command 5, then deleted by the same
transaction at command 6 (equal-or-later than 5), which makes it invisible. -/
theorem gstore_fdw_visibility_own_insert_witness :
    (gstore_fdw_satisfies_visibility
        ⟨fun x => x == 10, fun _ => true, fun a b => a < b⟩
        { hash := 1, database_oid := 2, table_oid := 3, xmax := 10, xmin := 10, cid := 6,
          xmax_commited := false, xmin_commited := false, kds_nitems := 7, kds_length := 64,
          cuda_dindex := -1, ipc_mhandle := 0, dsm_handle := 4 }
        ⟨5, fun _ => false⟩).1 = false :=
  (gstore_fdw_visibility_own_insert
    ⟨fun x => x == 10, fun _ => true, fun a b => a < b⟩
    ⟨5, fun _ => false⟩
    { hash := 1, database_oid := 2, table_oid := 3, xmax := 10, xmin := 10, cid := 6,
      xmax_commited := false, xmin_commited := false, kds_nitems := 7, kds_length := 64,
      cuda_dindex := -1, ipc_mhandle := 0, dsm_handle := 4 }
    (by rfl) (by rfl)).2 (by rfl) (by decide)

/-- C3: delete-side visibility for a chunk whose insert is established as
committed (flag set, not in progress per the snapshot) and whose delete xid is
set.  An own-transaction delete yields invisible exactly when the delete
command is strictly earlier than the snapshot's current command; an in-flight
delete keeps the chunk visible; a committed-but-unmarked delete caches the
delete-committed flag and yields invisible; a delete that did not commit
resets the delete xid to invalid and the chunk stays visible. -/
theorem gstore_fdw_visibility_delete_side (o : TxOracle) (s : Snapshot) (c : GpuStoreChunk)
    (h1 : c.xmin_commited = true)
    (h2 : c.xmin = FrozenTransactionId ∨ s.xidIn c.xmin = false)
    (h3 : TransactionIdIsValid c.xmax = true) :
    (c.xmax_commited = false → o.isCurrent c.xmax = true →
       ((gstore_fdw_satisfies_visibility o c s).1 = false ↔ c.cid < s.curcid))
    ∧ (c.xmax_commited = false → o.isCurrent c.xmax = false → s.xidIn c.xmax = true →
       gstore_fdw_satisfies_visibility o c s = (true, c))
    ∧ (c.xmax_commited = false → o.isCurrent c.xmax = false → s.xidIn c.xmax = false →
       o.didCommit c.xmax = true →
       gstore_fdw_satisfies_visibility o c s = (false, { c with xmax_commited := true }))
    ∧ (c.xmax_commited = false → o.isCurrent c.xmax = false → s.xidIn c.xmax = false →
       o.didCommit c.xmax = false →
       gstore_fdw_satisfies_visibility o c s = (true, { c with xmax := InvalidTransactionId })) := by
  rw [visibility_committed_reduces o s c h1 h2]
  unfold gstore_fdw_visibility_xmax
  refine ⟨?_, ?_, ?_, ?_⟩
  · intro hxc hcur
    by_cases hc : s.curcid ≤ c.cid
    · simp [h3, hxc, hcur, hc]
    · simp [h3, hxc, hcur, hc]
      omega
  · intro hxc hcur hin
    simp [h3, hxc, hcur, hin]
  · intro hxc hcur hin hdc
    simp [h3, hxc, hcur, hin, hdc]
  · intro hxc hcur hin hdc
    simp [h3, hxc, hcur, hin, hdc]

/-- Witness for C3 at concrete chunks: transaction 10 deleted a committed
chunk at command 2 under current command 5 (invisible, strictly earlier), and
a committed-but-unmarked delete by transaction 7 caches the flag. -/
theorem gstore_fdw_visibility_delete_side_witness :
    ((gstore_fdw_satisfies_visibility
        ⟨fun x => x == 10, fun x => x == 7, fun a b => a < b⟩
        { hash := 1, database_oid := 2, table_oid := 3, xmax := 10, xmin := 6, cid := 2,
          xmax_commited := false, xmin_commited := true, kds_nitems := 7, kds_length := 64,
          cuda_dindex := -1, ipc_mhandle := 0, dsm_handle := 4 }
        ⟨5, fun _ => false⟩).1 = false ↔ (2 : Nat) < 5)
    ∧ (gstore_fdw_satisfies_visibility
        ⟨fun x => x == 10, fun x => x == 7, fun a b => a < b⟩
        { hash := 1, database_oid := 2, table_oid := 3, xmax := 7, xmin := 6, cid := 2,
          xmax_commited := false, xmin_commited := true, kds_nitems := 7, kds_length := 64,
          cuda_dindex := -1, ipc_mhandle := 0, dsm_handle := 4 }
        ⟨5, fun _ => false⟩ =
       (false, { hash := 1, database_oid := 2, table_oid := 3, xmax := 7, xmin := 6, cid := 2,
                 xmax_commited := true, xmin_commited := true, kds_nitems := 7, kds_length := 64,
                 cuda_dindex := -1, ipc_mhandle := 0, dsm_handle := 4 })) := by
  constructor
  · exact (gstore_fdw_visibility_delete_side
      ⟨fun x => x == 10, fun x => x == 7, fun a b => a < b⟩ ⟨5, fun _ => false⟩
      { hash := 1, database_oid := 2, table_oid := 3, xmax := 10, xmin := 6, cid := 2,
        xmax_commited := false, xmin_commited := true, kds_nitems := 7, kds_length := 64,
        cuda_dindex := -1, ipc_mhandle := 0, dsm_handle := 4 }
      (by rfl) (Or.inr (by rfl)) (by rfl)).1 (by rfl) (by rfl)
  · exact (gstore_fdw_visibility_delete_side
      ⟨fun x => x == 10, fun x => x == 7, fun a b => a < b⟩ ⟨5, fun _ => false⟩
      { hash := 1, database_oid := 2, table_oid := 3, xmax := 7, xmin := 6, cid := 2,
        xmax_commited := false, xmin_commited := true, kds_nitems := 7, kds_length := 64,
        cuda_dindex := -1, ipc_mhandle := 0, dsm_handle := 4 }
      (by rfl) (Or.inr (by rfl)) (by rfl)).2.2.1 (by rfl) (by rfl) (by rfl) (by rfl)

/-- Helper: every chunk kept by the reclaimer's state chain is either the
chunk it was given or that chunk with its xmin frozen. -/
theorem gstoreXactChunkState_kept (o : TxOracle) (d : GpuStoreChunk) (oldestXmin : Nat) :
    ∀ c', (gstoreXactChunkState o d oldestXmin).1 = some c' →
      c' = d ∨ c' = { d with xmin := FrozenTransactionId } := by
  intro c' hres
  unfold gstoreXactChunkState at hres
  split_ifs at hres <;> simp at hres <;> simp [hres]

/-- C4: when the ending transaction is the chunk's inserting transaction, the
reclaimer marks the insert committed on commit (every chunk it keeps carries
the flag), and on abort it releases the chunk immediately — the descriptor is
unlinked and returned to the free list (`none`) and the per-chunk pass stops
with no further attention requested, so no snapshot can ever reach the chunk
through the active buckets again. -/
theorem gstore_xact_insert_side (o : TxOracle) (is_commit : Bool)
    (c : GpuStoreChunk) (oldestXmin : Nat)
    (h : o.isCurrent c.xmin = true) :
    (is_commit = false →
       gstoreOnXactCallbackPerChunk o false c oldestXmin = (none, false))
    ∧ (is_commit = true → ∀ c',
        (gstoreOnXactCallbackPerChunk o true c oldestXmin).1 = some c' →
        c'.xmin_commited = true) := by
  constructor
  · intro _
    unfold gstoreOnXactCallbackPerChunk
    by_cases hx : o.isCurrent c.xmax <;> simp [hx, h]
  · intro _ c' hres
    unfold gstoreOnXactCallbackPerChunk at hres
    by_cases hx : o.isCurrent c.xmax <;> simp [hx, h] at hres <;>
      rcases gstoreXactChunkState_kept _ _ _ c' hres with rfl | rfl <;> simp

/-- Witness for C4: transaction 10 inserted the chunk; abort releases it, and
commit keeps it only with the insert-committed flag set. -/
theorem gstore_xact_insert_side_witness :
    gstoreOnXactCallbackPerChunk
        ⟨fun x => x == 10, fun _ => true, fun a b => a < b⟩ false
        { hash := 1, database_oid := 2, table_oid := 3, xmax := 0, xmin := 10, cid := 3,
          xmax_commited := false, xmin_commited := false, kds_nitems := 7, kds_length := 64,
          cuda_dindex := -1, ipc_mhandle := 0, dsm_handle := 4 } 20 = (none, false) :=
  (gstore_xact_insert_side
    ⟨fun x => x == 10, fun _ => true, fun a b => a < b⟩ false
    { hash := 1, database_oid := 2, table_oid := 3, xmax := 0, xmin := 10, cid := 3,
      xmax_commited := false, xmin_commited := false, kds_nitems := 7, kds_length := 64,
      cuda_dindex := -1, ipc_mhandle := 0, dsm_handle := 4 } 20 (by rfl)).1 (by rfl)

/-- C5: a chunk with no delete xid and a normal insert xid that is not the
ending transaction's own is kept by one reclaimer pass (still warm) while the
insert is uncommitted or not yet older than oldest-active-xmin; otherwise its
xmin is frozen and it asks for no further attention.  The store-wide pass
writes has_warm_chunks back to zero exactly when no chunk asked for further
attention. -/
theorem gstore_xact_freeze_or_keep (o : TxOracle) (is_commit : Bool)
    (c : GpuStoreChunk) (oldestXmin : Nat)
    (h0 : c.xmax = InvalidTransactionId)
    (h1 : TransactionIdIsNormal c.xmin = true)
    (h2 : o.isCurrent c.xmin = false)
    (h3 : o.isCurrent c.xmax = false) :
    (c.xmin_commited = false →
       gstoreOnXactCallbackPerChunk o is_commit c oldestXmin = (some c, true))
    ∧ (c.xmin_commited = true → o.precedes c.xmin oldestXmin = false →
       gstoreOnXactCallbackPerChunk o is_commit c oldestXmin = (some c, true))
    ∧ (c.xmin_commited = true → o.precedes c.xmin oldestXmin = true →
       gstoreOnXactCallbackPerChunk o is_commit c oldestXmin =
         (some { c with xmin := FrozenTransactionId }, false))
    ∧ (∀ chunks warm, warm ≠ 0 →
       ((gstoreXactCallback o is_commit oldestXmin chunks warm).2 = 0 ↔
        ∀ ch ∈ chunks, (gstoreOnXactCallbackPerChunk o is_commit ch oldestXmin).2 = false)) := by
  have hxval : TransactionIdIsValid c.xmax = false := by
    simp [TransactionIdIsValid, h0]
  refine ⟨?_, ?_, ?_, ?_⟩
  · intro hu
    unfold gstoreOnXactCallbackPerChunk gstoreXactChunkState
    simp [h2, h3, hxval, h1, hu]
  · intro hcm hpre
    unfold gstoreOnXactCallbackPerChunk gstoreXactChunkState
    simp [h2, h3, hxval, h1, hcm, hpre]
  · intro hcm hpre
    unfold gstoreOnXactCallbackPerChunk gstoreXactChunkState
    simp [h2, h3, hxval, h1, hcm, hpre]
  · intro chunks warm hw
    unfold gstoreXactCallback
    simp only [hw, if_false, ite_false]
    by_cases hany : (chunks.map
        (fun ch => gstoreOnXactCallbackPerChunk o is_commit ch oldestXmin)).any Prod.snd
    · simp only [hany, ite_true, if_true]
      constructor
      · intro h0'; exact absurd h0' hw
      · intro hall
        rw [List.any_eq_true] at hany
        obtain ⟨p, hp, hsnd⟩ := hany
        rw [List.mem_map] at hp
        obtain ⟨ch, hch, rfl⟩ := hp
        rw [hall ch hch] at hsnd
        cases hsnd
    · simp only [hany, ite_false, if_false]
      constructor
      · intro _
        intro ch hch
        simp only [Bool.not_eq_true] at hany
        rw [List.any_eq_false] at hany
        have := hany _ (List.mem_map_of_mem _ hch)
        simpa using this
      · intro _; rfl

/-- Witness for C5: committed insert by transaction 4, oldest-active-xmin 20,
no delete — the pass freezes the chunk's xmin. -/
theorem gstore_xact_freeze_or_keep_witness :
    gstoreOnXactCallbackPerChunk
        ⟨fun x => x == 10, fun _ => true, fun a b => a < b⟩ true
        { hash := 1, database_oid := 2, table_oid := 3, xmax := 0, xmin := 4, cid := 3,
          xmax_commited := false, xmin_commited := true, kds_nitems := 7, kds_length := 64,
          cuda_dindex := -1, ipc_mhandle := 0, dsm_handle := 4 } 20 =
      (some { hash := 1, database_oid := 2, table_oid := 3, xmax := 0,
              xmin := FrozenTransactionId, cid := 3,
              xmax_commited := false, xmin_commited := true, kds_nitems := 7, kds_length := 64,
              cuda_dindex := -1, ipc_mhandle := 0, dsm_handle := 4 }, false) :=
  (gstore_xact_freeze_or_keep
    ⟨fun x => x == 10, fun _ => true, fun a b => a < b⟩ true
    { hash := 1, database_oid := 2, table_oid := 3, xmax := 0, xmin := 4, cid := 3,
      xmax_commited := false, xmin_commited := true, kds_nitems := 7, kds_length := 64,
      cuda_dindex := -1, ipc_mhandle := 0, dsm_handle := 4 } 20
    (by rfl) (by rfl) (by rfl) (by rfl)).2.2.1 (by rfl) (by decide)

/-- C6: beginning a chunk write raises ERRCODE_FEATURE_NOT_SUPPORTED when a
chunk visible under the caller's snapshot already exists for the table, and in
that case no state other than the lookup's own visibility caching is touched
(in particular no descriptor is registered); the begin step succeeds exactly
when the lookup finds no visible chunk. -/
theorem gstore_begin_modify_empty_only (o : TxOracle) (s : Snapshot)
    (h db tbl : Nat) (st : GStoreState) :
    (∀ g b', gstore_fdw_lookup_chunk_nolock o s h db tbl st.bucket = .ok (some g, b') →
       gstoreBeginForeignModify o s h db tbl st = .error .featureNotSupported)
    ∧ (∀ b', gstore_fdw_lookup_chunk_nolock o s h db tbl st.bucket = .ok (none, b') →
       gstoreBeginForeignModify o s h db tbl st = .ok { st with bucket := b' })
    ∧ (∀ st', gstoreBeginForeignModify o s h db tbl st = .ok st' →
       ∃ b', gstore_fdw_lookup_chunk_nolock o s h db tbl st.bucket = .ok (none, b') ∧
             st' = { st with bucket := b' }) := by
  refine ⟨?_, ?_, ?_⟩
  · intro g b' hlk
    unfold gstoreBeginForeignModify
    rw [hlk]
  · intro b' hlk
    unfold gstoreBeginForeignModify
    rw [hlk]
  · intro st' hok
    unfold gstoreBeginForeignModify at hok
    rcases hres : gstore_fdw_lookup_chunk_nolock o s h db tbl st.bucket with e | ⟨found, b'⟩
    · rw [hres] at hok; cases hok
    · rw [hres] at hok
      cases found with
      | none =>
        refine ⟨b', rfl, ?_⟩
        cases hok
        rfl
      | some g => cases hok

/-- Witness for C6 at a one-chunk store: the chunk written by the committed
frozen transaction is visible, so BeginForeignModify refuses the INSERT. -/
theorem gstore_begin_modify_empty_only_witness :
    (gstore_fdw_lookup_chunk_nolock
        ⟨fun x => x == 10, fun _ => true, fun a b => a < b⟩ ⟨5, fun _ => false⟩ 1 2 3
        [{ hash := 1, database_oid := 2, table_oid := 3, xmax := 0, xmin := 2, cid := 0,
           xmax_commited := false, xmin_commited := true, kds_nitems := 7, kds_length := 64,
           cuda_dindex := -1, ipc_mhandle := 0, dsm_handle := 4 }] =
      .ok (some { hash := 1, database_oid := 2, table_oid := 3, xmax := 0, xmin := 2, cid := 0,
                  xmax_commited := false, xmin_commited := true, kds_nitems := 7, kds_length := 64,
                  cuda_dindex := -1, ipc_mhandle := 0, dsm_handle := 4 },
             [{ hash := 1, database_oid := 2, table_oid := 3, xmax := 0, xmin := 2, cid := 0,
                xmax_commited := false, xmin_commited := true, kds_nitems := 7, kds_length := 64,
                cuda_dindex := -1, ipc_mhandle := 0, dsm_handle := 4 }])) ∧
    gstoreBeginForeignModify
        ⟨fun x => x == 10, fun _ => true, fun a b => a < b⟩ ⟨5, fun _ => false⟩ 1 2 3
        { bucket := [{ hash := 1, database_oid := 2, table_oid := 3, xmax := 0, xmin := 2, cid := 0,
                       xmax_commited := false, xmin_commited := true, kds_nitems := 7,
                       kds_length := 64, cuda_dindex := -1, ipc_mhandle := 0, dsm_handle := 4 }],
          free_chunks := [], devPreserved := 0, has_warm := 0 } =
      .error .featureNotSupported := by
  constructor
  · rfl
  · exact (gstore_begin_modify_empty_only
      ⟨fun x => x == 10, fun _ => true, fun a b => a < b⟩ ⟨5, fun _ => false⟩ 1 2 3
      { bucket := [{ hash := 1, database_oid := 2, table_oid := 3, xmax := 0, xmin := 2, cid := 0,
                     xmax_commited := false, xmin_commited := true, kds_nitems := 7,
                     kds_length := 64, cuda_dindex := -1, ipc_mhandle := 0, dsm_handle := 4 }],
        free_chunks := [], devPreserved := 0, has_warm := 0 }).1
      { hash := 1, database_oid := 2, table_oid := 3, xmax := 0, xmin := 2, cid := 0,
        xmax_commited := false, xmin_commited := true, kds_nitems := 7, kds_length := 64,
        cuda_dindex := -1, ipc_mhandle := 0, dsm_handle := 4 }
      [{ hash := 1, database_oid := 2, table_oid := 3, xmax := 0, xmin := 2, cid := 0,
         xmax_commited := false, xmin_commited := true, kds_nitems := 7, kds_length := 64,
         cuda_dindex := -1, ipc_mhandle := 0, dsm_handle := 4 }]
      (by rfl)

/-- C7: a chunk write-out that finds the shared descriptor free list empty
fails with ERRCODE_INSUFFICIENT_RESOURCES and, before the error propagates,
the preserved device allocation acquired for the chunk's device mirror is
freed again: the post-error state has the original device-allocation count,
the free list (still empty) and the bucket untouched. -/
theorem gstore_writeout_exhausted (pinned : Bool)
    (h db tbl curXid curcid nitems len : Nat) (dindex : Int) (mh dh : Nat)
    (st : GStoreState) (hfree : st.free_chunks = []) :
    ∃ st', gstore_fdw_writeout_pgstrom pinned h db tbl curXid curcid nitems len dindex mh dh st
             = .error (.insufficientResources, st')
           ∧ st'.devPreserved = st.devPreserved
           ∧ st'.free_chunks = st.free_chunks
           ∧ st'.bucket = st.bucket
           ∧ st'.has_warm = st.has_warm := by
  unfold gstore_fdw_writeout_pgstrom
  cases pinned <;> simp [hfree]

/-- Witness for C7: pinned write-out against an exhausted two-deep store. -/
theorem gstore_writeout_exhausted_witness :
    ∃ st', gstore_fdw_writeout_pgstrom true 1 2 3 10 4 7 64 0 9 5
             { bucket := [], free_chunks := [], devPreserved := 2, has_warm := 1 }
             = .error (.insufficientResources, st')
           ∧ st'.devPreserved = 2
           ∧ st'.free_chunks = ([] : List GpuStoreChunk)
           ∧ st'.bucket = ([] : List GpuStoreChunk)
           ∧ st'.has_warm = 1 :=
  gstore_writeout_exhausted true 1 2 3 10 4 7 64 0 9 5
    { bucket := [], free_chunks := [], devPreserved := 2, has_warm := 1 } (by rfl)

/-- C10: the whole-chunk DELETE execution step is defined only under its
implicit precondition that the lookup finds a visible chunk: with no visible
chunk the source dereferences NULL (no guarded error path, modelled `none`);
with a visible chunk it unconditionally overwrites the chunk's xmax and cid
with the deleting transaction's xid and command id (the delete id being
invalid beforehand is only an Assert, not a guard). -/
theorem gstore_direct_modify_needs_chunk (o : TxOracle) (s : Snapshot)
    (h db tbl curXid curcid : Nat) (bucket : List GpuStoreChunk) (has_warm : Nat) :
    (∀ b', gstore_fdw_lookup_chunk_nolock o s h db tbl bucket = .ok (none, b') →
       gstoreIterateDirectModify o s h db tbl curXid curcid bucket has_warm = none)
    ∧ (∀ g b', gstore_fdw_lookup_chunk_nolock o s h db tbl bucket = .ok (some g, b') →
       gstoreIterateDirectModify o s h db tbl curXid curcid bucket has_warm =
         some (.ok ({ g with xmax := curXid, cid := curcid }, has_warm + 1))) := by
  constructor
  · intro b' hlk
    unfold gstoreIterateDirectModify
    rw [hlk]
  · intro g b' hlk
    unfold gstoreIterateDirectModify
    rw [hlk]

/-- Witness for C10: an empty bucket has no visible chunk, so the DELETE step
is undefined (NULL dereference); a store with one visible frozen chunk gets
its xmax and cid stamped by transaction 10 at command 5. -/
theorem gstore_direct_modify_needs_chunk_witness :
    gstoreIterateDirectModify
        ⟨fun x => x == 10, fun _ => true, fun a b => a < b⟩ ⟨5, fun _ => false⟩ 1 2 3 10 5 [] 0
      = none
    ∧ gstoreIterateDirectModify
        ⟨fun x => x == 10, fun _ => true, fun a b => a < b⟩ ⟨5, fun _ => false⟩ 1 2 3 10 5
        [{ hash := 1, database_oid := 2, table_oid := 3, xmax := 0, xmin := 2, cid := 0,
           xmax_commited := false, xmin_commited := true, kds_nitems := 7, kds_length := 64,
           cuda_dindex := -1, ipc_mhandle := 0, dsm_handle := 4 }] 0
      = some (.ok ({ hash := 1, database_oid := 2, table_oid := 3, xmax := 10, xmin := 2, cid := 5,
                     xmax_commited := false, xmin_commited := true, kds_nitems := 7,
                     kds_length := 64, cuda_dindex := -1, ipc_mhandle := 0, dsm_handle := 4 }, 1)) := by
  constructor
  · exact (gstore_direct_modify_needs_chunk
      ⟨fun x => x == 10, fun _ => true, fun a b => a < b⟩ ⟨5, fun _ => false⟩
      1 2 3 10 5 [] 0).1 [] (by rfl)
  · exact (gstore_direct_modify_needs_chunk
      ⟨fun x => x == 10, fun _ => true, fun a b => a < b⟩ ⟨5, fun _ => false⟩
      1 2 3 10 5
      [{ hash := 1, database_oid := 2, table_oid := 3, xmax := 0, xmin := 2, cid := 0,
         xmax_commited := false, xmin_commited := true, kds_nitems := 7, kds_length := 64,
         cuda_dindex := -1, ipc_mhandle := 0, dsm_handle := 4 }] 0).2
      { hash := 1, database_oid := 2, table_oid := 3, xmax := 0, xmin := 2, cid := 0,
        xmax_commited := false, xmin_commited := true, kds_nitems := 7, kds_length := 64,
        cuda_dindex := -1, ipc_mhandle := 0, dsm_handle := 4 }
      [{ hash := 1, database_oid := 2, table_oid := 3, xmax := 0, xmin := 2, cid := 0,
         xmax_commited := false, xmin_commited := true, kds_nitems := 7, kds_length := 64,
         cuda_dindex := -1, ipc_mhandle := 0, dsm_handle := 4 }]
      (by rfl)

/-- Helper: a bucket in which no chunk passes the identity-and-visibility
condition scans to `none`. -/
theorem lookup_scan_no_pass (o : TxOracle) (s : Snapshot) (h db tbl : Nat) :
    ∀ bucket : List GpuStoreChunk,
      bucket.filter (gstoreChunkPasses o s h db tbl) = [] →
      ∃ b', gstore_fdw_lookup_chunk_nolock o s h db tbl bucket = .ok (none, b') := by
  intro bucket
  induction bucket with
  | nil => intro _; exact ⟨[], rfl⟩
  | cons c rest ih =>
    intro hfil
    rw [List.filter_cons] at hfil
    by_cases hp : gstoreChunkPasses o s h db tbl c = true
    · simp [hp] at hfil
    · rw [if_neg (by simp [hp])] at hfil
      obtain ⟨b', hb⟩ := ih hfil
      by_cases hi : chunkIdentMatches h db tbl c = true
      · have hv : (gstore_fdw_satisfies_visibility o c s).1 = false := by
          unfold gstoreChunkPasses at hp
          simp [hi] at hp
          exact hp
        exact ⟨(gstore_fdw_satisfies_visibility o c s).2 :: b',
          by simp [gstore_fdw_lookup_chunk_nolock, hi, hb, hv]⟩
      · exact ⟨c :: b', by simp [gstore_fdw_lookup_chunk_nolock, hi, hb]⟩

/-- Helper: a bucket in which exactly one chunk passes scans to that chunk
(as updated by the visibility call). -/
theorem lookup_scan_one_pass (o : TxOracle) (s : Snapshot) (h db tbl : Nat) :
    ∀ (bucket : List GpuStoreChunk) (cpass : GpuStoreChunk),
      bucket.filter (gstoreChunkPasses o s h db tbl) = [cpass] →
      ∃ b', gstore_fdw_lookup_chunk_nolock o s h db tbl bucket =
        .ok (some (gstore_fdw_satisfies_visibility o cpass s).2, b') := by
  intro bucket
  induction bucket with
  | nil => intro cpass hfil; simp at hfil
  | cons c rest ih =>
    intro cpass hfil
    rw [List.filter_cons] at hfil
    by_cases hp : gstoreChunkPasses o s h db tbl c = true
    · rw [if_pos (by simp [hp])] at hfil
      injection hfil with hc hrest
      subst hc
      obtain ⟨b', hb⟩ := lookup_scan_no_pass o s h db tbl rest hrest
      have hi : chunkIdentMatches h db tbl c = true := by
        unfold gstoreChunkPasses at hp
        exact (Bool.and_eq_true _ _).mp hp |>.1
      have hv : (gstore_fdw_satisfies_visibility o c s).1 = true := by
        unfold gstoreChunkPasses at hp
        exact (Bool.and_eq_true _ _).mp hp |>.2
      exact ⟨(gstore_fdw_satisfies_visibility o c s).2 :: b',
        by simp [gstore_fdw_lookup_chunk_nolock, hi, hb, hv]⟩
    · rw [if_neg (by simp [hp])] at hfil
      obtain ⟨b', hb⟩ := ih cpass hfil
      by_cases hi : chunkIdentMatches h db tbl c = true
      · have hv : (gstore_fdw_satisfies_visibility o c s).1 = false := by
          unfold gstoreChunkPasses at hp
          simp [hi] at hp
          exact hp
        exact ⟨(gstore_fdw_satisfies_visibility o c s).2 :: b',
          by simp [gstore_fdw_lookup_chunk_nolock, hi, hb, hv]⟩
      · exact ⟨c :: b', by simp [gstore_fdw_lookup_chunk_nolock, hi, hb]⟩

/-- Helper: a bucket in which two or more chunks pass scans to the fatal
consistency-violation error. -/
theorem lookup_scan_multi (o : TxOracle) (s : Snapshot) (h db tbl : Nat) :
    ∀ bucket : List GpuStoreChunk,
      2 ≤ (bucket.filter (gstoreChunkPasses o s h db tbl)).length →
      gstore_fdw_lookup_chunk_nolock o s h db tbl bucket = .error .multipleVisibleChunks := by
  intro bucket
  induction bucket with
  | nil => intro hlen; simp at hlen
  | cons c rest ih =>
    intro hlen
    rw [List.filter_cons] at hlen
    by_cases hp : gstoreChunkPasses o s h db tbl c = true
    · rw [if_pos (by simp [hp])] at hlen
      simp only [List.length_cons] at hlen
      have hi : chunkIdentMatches h db tbl c = true := by
        unfold gstoreChunkPasses at hp
        exact (Bool.and_eq_true _ _).mp hp |>.1
      have hv : (gstore_fdw_satisfies_visibility o c s).1 = true := by
        unfold gstoreChunkPasses at hp
        exact (Bool.and_eq_true _ _).mp hp |>.2
      rcases hr : rest.filter (gstoreChunkPasses o s h db tbl) with _ | ⟨x, xs⟩
      · rw [hr] at hlen; simp at hlen
      · cases xs with
        | nil =>
          obtain ⟨b', hb⟩ := lookup_scan_one_pass o s h db tbl rest x hr
          simp [gstore_fdw_lookup_chunk_nolock, hi, hb, hv]
        | cons y ys =>
          have h2 : 2 ≤ (rest.filter (gstoreChunkPasses o s h db tbl)).length := by
            rw [hr]; simp only [List.length_cons]; omega
          have herr := ih h2
          simp [gstore_fdw_lookup_chunk_nolock, hi, herr]
    · rw [if_neg (by simp [hp])] at hlen
      have herr := ih hlen
      by_cases hi : chunkIdentMatches h db tbl c = true
      · simp [gstore_fdw_lookup_chunk_nolock, hi, herr]
      · simp [gstore_fdw_lookup_chunk_nolock, hi, herr]

/-- C1: the bucket scan of the chunk-store lookup returns `none` when no
chunk of the bucket matches the (database, table) identity with a passing
visibility predicate, returns exactly the single such chunk (as updated by
its visibility call) when there is one, and raises the fatal
"Bug? multiple GpuStoreChunks are visible" consistency violation as soon as a
second chunk passes. -/
theorem gstore_fdw_lookup_chunk_spec (o : TxOracle) (s : Snapshot) (h db tbl : Nat)
    (bucket : List GpuStoreChunk) :
    (bucket.filter (gstoreChunkPasses o s h db tbl) = [] →
       ∃ b', gstore_fdw_lookup_chunk_nolock o s h db tbl bucket = .ok (none, b'))
    ∧ (∀ cpass, bucket.filter (gstoreChunkPasses o s h db tbl) = [cpass] →
       ∃ b', gstore_fdw_lookup_chunk_nolock o s h db tbl bucket =
         .ok (some (gstore_fdw_satisfies_visibility o cpass s).2, b'))
    ∧ (2 ≤ (bucket.filter (gstoreChunkPasses o s h db tbl)).length →
       gstore_fdw_lookup_chunk_nolock o s h db tbl bucket = .error .multipleVisibleChunks) :=
  ⟨lookup_scan_no_pass o s h db tbl bucket,
   fun cpass => lookup_scan_one_pass o s h db tbl bucket cpass,
   lookup_scan_multi o s h db tbl bucket⟩

/-- Witness for C1: a bucket holding two frozen committed chunks for the same
(database, table) makes the lookup raise the consistency violation. -/
theorem gstore_fdw_lookup_chunk_spec_witness :
    gstore_fdw_lookup_chunk_nolock
      ⟨fun x => x == 10, fun _ => true, fun a b => a < b⟩ ⟨5, fun _ => false⟩ 1 2 3
      [{ hash := 1, database_oid := 2, table_oid := 3, xmax := 0, xmin := 2, cid := 0,
         xmax_commited := false, xmin_commited := true, kds_nitems := 7, kds_length := 64,
         cuda_dindex := -1, ipc_mhandle := 0, dsm_handle := 4 },
       { hash := 1, database_oid := 2, table_oid := 3, xmax := 0, xmin := 2, cid := 0,
         xmax_commited := false, xmin_commited := true, kds_nitems := 8, kds_length := 72,
         cuda_dindex := -1, ipc_mhandle := 0, dsm_handle := 5 }] = .error .multipleVisibleChunks :=
  (gstore_fdw_lookup_chunk_spec
    ⟨fun x => x == 10, fun _ => true, fun a b => a < b⟩ ⟨5, fun _ => false⟩ 1 2 3
    [{ hash := 1, database_oid := 2, table_oid := 3, xmax := 0, xmin := 2, cid := 0,
       xmax_commited := false, xmin_commited := true, kds_nitems := 7, kds_length := 64,
       cuda_dindex := -1, ipc_mhandle := 0, dsm_handle := 4 },
     { hash := 1, database_oid := 2, table_oid := 3, xmax := 0, xmin := 2, cid := 0,
       xmax_commited := false, xmin_commited := true, kds_nitems := 8, kds_length := 72,
       cuda_dindex := -1, ipc_mhandle := 0, dsm_handle := 5 }]).2.2 (by decide)

end GStore

namespace ResTrack

/-- Helper: a scan over a table with no matching entry returns NULL and
leaves the table unchanged. -/
theorem untrack_no_match (hashval : Nat → Nat → Nat) :
    ∀ (t : Tracker) (devptr : Nat),
      (∀ e ∈ t, gpuMemEntryMatches hashval devptr e = false) →
      untrackGpuMem hashval t devptr = (none, t) := by
  intro t devptr
  induction t with
  | nil => intro _; rfl
  | cons e rest ih =>
    intro h
    have he := h e (List.mem_cons_self e rest)
    have hr := ih (fun x hx => h x (List.mem_cons_of_mem _ hx))
    simp [untrackGpuMem, he, hr]

/-- Helper: scanning past non-matching entries finds the freshly appended
entry and removes exactly it. -/
theorem untrack_appended (hashval : Nat → Nat → Nat) (devptr extra : Nat) :
    ∀ t : Tracker,
      (∀ e ∈ t, gpuMemEntryMatches hashval devptr e = false) →
      untrackGpuMem hashval
        (t ++ [{ crc := hashval RESTRACK_CLASS_GPUMEMORY devptr
                 resclass := RESTRACK_CLASS_GPUMEMORY
                 ptr := devptr
                 extra := extra }]) devptr = (some extra, t) := by
  intro t
  induction t with
  | nil =>
    intro _
    simp [untrackGpuMem, gpuMemEntryMatches]
  | cons e rest ih =>
    intro h
    have he := h e (List.mem_cons_self e rest)
    have hr := ih (fun x hx => h x (List.mem_cons_of_mem _ hx))
    simp [untrackGpuMem, he, hr]

/-- C9: on a tracker holding no device-memory entry for the pointer, a
successful track followed by an untrack of the same class and pointer removes
exactly the new entry and returns the stored extra (round-trip to the original
table), while an untrack with no tracked entry returns NULL and leaves the
tracker unchanged (the source only emits a notice). -/
theorem track_untrack_roundtrip (hashval : Nat → Nat → Nat) (t : Tracker)
    (devptr extra : Nat)
    (hfresh : ∀ e ∈ t, gpuMemEntryMatches hashval devptr e = false) :
    (∀ t', trackGpuMem hashval t devptr extra true = some t' →
        untrackGpuMem hashval t' devptr = (some extra, t))
    ∧ untrackGpuMem hashval t devptr = (none, t) := by
  constructor
  · intro t' ht'
    have heq : t' = t ++ [{ crc := hashval RESTRACK_CLASS_GPUMEMORY devptr
                            resclass := RESTRACK_CLASS_GPUMEMORY
                            ptr := devptr
                            extra := extra }] := by
      unfold trackGpuMem at ht'
      simpa using ht'.symm
    rw [heq]
    exact untrack_appended hashval devptr extra t hfresh
  · exact untrack_no_match hashval t devptr hfresh

/-- Witness for C9 with a one-entry tracker for a different pointer: tracking
pointer 100 with extra 55 and untracking it restores the original table. -/
theorem track_untrack_roundtrip_witness :
    (∀ t', trackGpuMem (fun c p => (c * 37 + p) % 64)
        [{ crc := (2 * 37 + 9) % 64, resclass := 2, ptr := 9, extra := 1 }] 100 55 true = some t' →
        untrackGpuMem (fun c p => (c * 37 + p) % 64) t' 100 =
          (some 55, [{ crc := (2 * 37 + 9) % 64, resclass := 2, ptr := 9, extra := 1 }]))
    ∧ untrackGpuMem (fun c p => (c * 37 + p) % 64)
        [{ crc := (2 * 37 + 9) % 64, resclass := 2, ptr := 9, extra := 1 }] 100 =
        (none, [{ crc := (2 * 37 + 9) % 64, resclass := 2, ptr := 9, extra := 1 }]) :=
  track_untrack_roundtrip (fun c p => (c * 37 + p) % 64)
    [{ crc := (2 * 37 + 9) % 64, resclass := 2, ptr := 9, extra := 1 }] 100 55
    (by decide)

end ResTrack

namespace GpuCtx

/-- Helper: reading a just-written slot. -/
theorem getD_set_self (l : List Int) (i : Nat) (a d : Int) (h : i < l.length) :
    (l.set i a).getD i d = a := by
  simp [List.getD_eq_getElem?_getD, List.getElem?_set_self', List.getElem?_eq_getElem h]

/-- Helper: reading another slot after a write. -/
theorem getD_set_ne (l : List Int) (i j : Nat) (a d : Int) (h : i ≠ j) :
    (l.set i a).getD j d = l.getD j d := by
  simp [List.getD_eq_getElem?_getD, List.getElem?_set_ne h]

/-- Helper: reading out of range yields the default. -/
theorem getD_out_of_range (l : List Int) (i : Nat) (d : Int) (h : l.length ≤ i) :
    l.getD i d = d := by
  simp [List.getD_eq_getElem?_getD, List.getElem?_eq_none h]

/-- Helper: a slot whose count reads nonzero is in range. -/
theorem lt_length_of_getD_ne (l : List Int) (i : Nat) (h : l.getD i 0 ≠ 0) :
    i < l.length := by
  by_contra hge
  exact h (getD_out_of_range l i 0 (Nat.le_of_not_lt hge))

/-- The start-up state satisfies the pool invariant. -/
theorem poolInv_init (n : Nat) : poolInv n (initPool n) := by
  refine ⟨rfl, by simp [initPool], by simpa [initPool] using List.nodup_range n, ?_, ?_, ?_⟩
  · intro i hi
    simpa [initPool] using hi
  · intro i hi
    constructor
    · intro _
      simp [initPool, List.getD_eq_getElem?_getD, List.getElem?_replicate, hi]
    · intro _
      simp [initPool, hi]
  · intro i
    by_cases hi : i < n
    · simp [initPool, List.getD_eq_getElem?_getD, List.getElem?_replicate, hi]
    · simp [initPool, List.getD_eq_getElem?_getD, List.getElem?_replicate, hi]

/-- Every successful pool step preserves the pool invariant. -/
theorem poolInv_step {n : Nat} {st st' : CtxPool} {op : PoolOp}
    (hinv : poolInv n st) (hstep : poolStep st op = some st') : poolInv n st' := by
  obtain ⟨hn, hlen, hnd, hlt, hiff, hpos⟩ := hinv
  cases op with
  | alloc =>
    simp only [poolStep] at hstep
    cases hfree : st.free with
    | nil => rw [hfree] at hstep; cases hstep
    | cons i rest =>
      rw [hfree] at hstep
      injection hstep with hst'
      subst hst'
      have hi_n : i < n := hlt i (by rw [hfree]; exact List.mem_cons_self i rest)
      have hnd2 := hnd
      rw [hfree, List.nodup_cons] at hnd2
      refine ⟨hn, by simpa using hlen, hnd2.2, ?_, ?_, ?_⟩
      · intro j hj
        exact hlt j (by rw [hfree]; exact List.mem_cons_of_mem _ hj)
      · intro j hj
        by_cases hij : j = i
        · subst hij
          constructor
          · intro hmem; exact absurd hmem hnd2.1
          · intro hzero
            rw [getD_set_self st.cnt j 1 0 (by rw [hlen]; exact hi_n)] at hzero
            cases hzero
        · rw [getD_set_ne st.cnt i j 1 0 (fun he => hij he.symm)]
          have := hiff j hj
          rw [hfree] at this
          simp only [List.mem_cons] at this
          constructor
          · intro hmem; exact this.mp (Or.inr hmem)
          · intro hzero
            rcases this.mpr hzero with he | hmem
            · exact absurd he hij
            · exact hmem
      · intro j
        by_cases hij : j = i
        · subst hij
          by_cases hjl : j < st.cnt.length
          · rw [getD_set_self st.cnt j 1 0 hjl]; omega
          · rw [getD_out_of_range _ j 0 (by simpa using Nat.le_of_not_lt hjl)]
        · rw [getD_set_ne st.cnt i j 1 0 (fun he => hij he.symm)]
          exact hpos j
  | attach i =>
    simp only [poolStep] at hstep
    by_cases hg : 0 < st.cnt.getD i 0
    · rw [if_pos hg] at hstep
      injection hstep with hst'
      subst hst'
      have hil : i < st.cnt.length := lt_length_of_getD_ne st.cnt i (by omega)
      refine ⟨hn, by simpa using hlen, hnd, hlt, ?_, ?_⟩
      · intro j hj
        by_cases hij : j = i
        · subst hij
          rw [getD_set_self st.cnt j _ 0 hil]
          have hne : st.cnt.getD j 0 ≠ 0 := by omega
          constructor
          · intro hmem
            exact absurd ((hiff j hj).mp hmem) hne
          · intro hzero; omega
        · rw [getD_set_ne st.cnt i j _ 0 (fun he => hij he.symm)]
          exact hiff j hj
      · intro j
        by_cases hij : j = i
        · subst hij
          rw [getD_set_self st.cnt j _ 0 hil]
          omega
        · rw [getD_set_ne st.cnt i j _ 0 (fun he => hij he.symm)]
          exact hpos j
    · rw [if_neg hg] at hstep
      cases hstep
  | put i =>
    simp only [poolStep] at hstep
    by_cases hg : 0 < st.cnt.getD i 0
    · rw [if_pos hg] at hstep
      have hil : i < st.cnt.length := lt_length_of_getD_ne st.cnt i (by omega)
      have hi_n : i < n := by rw [← hlen]; exact hil
      have hout : i ∉ st.free := by
        intro hmem
        have := (hiff i hi_n).mp hmem
        omega
      by_cases hc : st.cnt.getD i 0 - 1 > 0
      · rw [if_pos hc] at hstep
        injection hstep with hst'
        subst hst'
        refine ⟨hn, by simpa using hlen, hnd, hlt, ?_, ?_⟩
        · intro j hj
          by_cases hij : j = i
          · subst hij
            rw [getD_set_self st.cnt j _ 0 hil]
            constructor
            · intro hmem; exact absurd hmem hout
            · intro hzero; omega
          · rw [getD_set_ne st.cnt i j _ 0 (fun he => hij he.symm)]
            exact hiff j hj
        · intro j
          by_cases hij : j = i
          · subst hij
            rw [getD_set_self st.cnt j _ 0 hil]
            omega
          · rw [getD_set_ne st.cnt i j _ 0 (fun he => hij he.symm)]
            exact hpos j
      · rw [if_neg hc] at hstep
        injection hstep with hst'
        subst hst'
        refine ⟨hn, by simpa using hlen, ?_, ?_, ?_, ?_⟩
        · exact List.nodup_cons.mpr ⟨hout, hnd⟩
        · intro j hj
          rcases List.mem_cons.mp hj with rfl | hmem
          · exact hi_n
          · exact hlt j hmem
        · intro j hj
          by_cases hij : j = i
          · subst hij
            rw [getD_set_self st.cnt j 0 0 hil]
            simp
          · rw [getD_set_ne st.cnt i j 0 0 (fun he => hij he.symm)]
            simp only [List.mem_cons]
            constructor
            · intro hmem
              rcases hmem with he | hmem
              · exact absurd he hij
              · exact (hiff j hj).mp hmem
            · intro hzero
              exact Or.inr ((hiff j hj).mpr hzero)
        · intro j
          by_cases hij : j = i
          · subst hij
            rw [getD_set_self st.cnt j 0 0 hil]
          · rw [getD_set_ne st.cnt i j 0 0 (fun he => hij he.symm)]
            exact hpos j
    · rw [if_neg hg] at hstep
      cases hstep

/-- C8: in every pool state reachable through alloc/attach/put, no shared
descriptor's reference count is negative (every decrement was guarded by a
positive count), a slot sits on the free list exactly when its count is zero
(returned to the free list precisely at refcount 0), and at most the pool's
capacity in live descriptors exist simultaneously. -/
theorem ctx_pool_refcnt_safety (n : Nat) (st : CtxPool) (h : PoolReach n st) :
    (∀ i, 0 ≤ st.cnt.getD i 0)
    ∧ (∀ i, i < n → (i ∈ st.free ↔ st.cnt.getD i 0 = 0))
    ∧ liveCount st ≤ n := by
  have hinv : poolInv n st := by
    induction h with
    | init => exact poolInv_init n
    | step hr hs ih => exact poolInv_step ih hs
  obtain ⟨hn, _, _, _, hiff, hpos⟩ := hinv
  refine ⟨hpos, hiff, ?_⟩
  calc liveCount st ≤ (List.range st.n).length := List.length_filter_le _ _
    _ = n := by rw [List.length_range, hn]

/-- Witness for C8 along the concrete trace alloc, attach 0, put 0, put 0 on
a pool of capacity 2: the final state has both slots free with zero counts. -/
theorem ctx_pool_refcnt_safety_witness :
    (∀ i, 0 ≤ (CtxPool.mk 2 [0, 1] [0, 0]).cnt.getD i 0)
    ∧ (∀ i, i < 2 →
        (i ∈ (CtxPool.mk 2 [0, 1] [0, 0]).free ↔
          (CtxPool.mk 2 [0, 1] [0, 0]).cnt.getD i 0 = 0))
    ∧ liveCount (CtxPool.mk 2 [0, 1] [0, 0]) ≤ 2 :=
  ctx_pool_refcnt_safety 2 (CtxPool.mk 2 [0, 1] [0, 0])
    (@PoolReach.step 2 (CtxPool.mk 2 [1] [1, 0]) (CtxPool.mk 2 [0, 1] [0, 0]) (.put 0)
      (@PoolReach.step 2 (CtxPool.mk 2 [1] [2, 0]) (CtxPool.mk 2 [1] [1, 0]) (.put 0)
        (@PoolReach.step 2 (CtxPool.mk 2 [1] [1, 0]) (CtxPool.mk 2 [1] [2, 0]) (.attach 0)
          (@PoolReach.step 2 (initPool 2) (CtxPool.mk 2 [1] [1, 0]) .alloc
            PoolReach.init (by rfl))
          (by rfl))
        (by rfl))
      (by rfl))

end GpuCtx

